import Mathlib

/-!
# Verification of the HFP topshim profile

Shallow embedding of `src/system/gd/rust/topshim/src/profiles/hfp.rs`
(the Bluetooth hands-free-profile shim) together with theorems checking
the specification's claims against it.

Conventions of the embedding:
* Rust `u8`/`u16`/`u32`/`u64` become `Nat`, `i8`/`i32` become `Int`.
* A Rust panic (an `unwrap` on `None`, or an explicit `panic!`) is
  modelled by an `Option`-valued function returning `none`.
* The external C++ transport (`ffi::HfpIntf`) is out of scope per §1 of
  the spec; it is modelled as an oracle of pure functions giving the raw
  value each transport call returns, and every gateway operation also
  reports the list of transport calls it performed.
-/

/-- A remote device address (`RawAddress` from btif): six raw octets,
used purely as an opaque per-device key. -/
structure RawAddress where
  address : List Nat
  deriving DecidableEq, Repr

/-- `HfpCodecId` (hfp.rs lines 13-20). -/
inductive HfpCodecId where
  | NONE
  | CVSD
  | MSBC
  | LC3
  deriving DecidableEq, Repr

/-- `EscoCodingFormat` (hfp.rs lines 22-34). -/
inductive EscoCodingFormat where
  | ULAW
  | ALAW
  | CVSD
  | TRANSPARENT
  | LINEAR
  | MSBC
  | LC3
  | G729A
  | VENDOR
  deriving DecidableEq, Repr

/-- The `#[repr(u8)]` discriminant of `EscoCodingFormat` (hfp.rs lines
22-34); `impl From<EscoCodingFormat> for u8` (lines 42-46) is the
`item as u8` cast, which yields exactly this discriminant. -/
def EscoCodingFormat.to_u8 : EscoCodingFormat → Nat
  | .ULAW => 0x00
  | .ALAW => 0x01
  | .CVSD => 0x02
  | .TRANSPARENT => 0x03
  | .LINEAR => 0x04
  | .MSBC => 0x05
  | .LC3 => 0x06
  | .G729A => 0x07
  | .VENDOR => 0xff

/-- `EscoCodingFormat::from_u8` (the `FromPrimitive` derive): maps a byte
to the variant with that discriminant, `none` otherwise.
`impl From<u8> for EscoCodingFormat` (hfp.rs lines 36-40) unwraps this,
so `none` models the panic on an unsupported byte. -/
def EscoCodingFormat.from_u8 (v : Nat) : Option EscoCodingFormat :=
  match v with
  | 0x00 => some .ULAW
  | 0x01 => some .ALAW
  | 0x02 => some .CVSD
  | 0x03 => some .TRANSPARENT
  | 0x04 => some .LINEAR
  | 0x05 => some .MSBC
  | 0x06 => some .LC3
  | 0x07 => some .G729A
  | 0xff => some .VENDOR
  | _ => none

/-- `BthfConnectionState` (hfp.rs lines 48-56): the signaling-channel
(service-level) connection states. -/
inductive BthfConnectionState where
  | Disconnected
  | Connecting
  | Connected
  | SlcConnected
  | Disconnecting
  deriving DecidableEq, Repr, Fintype

/-- `BthfConnectionState::from_u32` (the `FromPrimitive` derive): maps a
`u32` to the variant with that discriminant (the `#[repr(u32)]` values
0..4), `none` otherwise. `impl From<u32> for BthfConnectionState`
(hfp.rs lines 58-62) unwraps this, so `none` models the panic on a value
outside the enumeration. -/
def BthfConnectionState.from_u32 (v : Nat) : Option BthfConnectionState :=
  match v with
  | 0 => some .Disconnected
  | 1 => some .Connecting
  | 2 => some .Connected
  | 3 => some .SlcConnected
  | 4 => some .Disconnecting
  | _ => none

/-- `BthfAudioState` (hfp.rs lines 64-71): the audio-channel states. -/
inductive BthfAudioState where
  | Disconnected
  | Connecting
  | Connected
  | Disconnecting
  deriving DecidableEq, Repr, Fintype

/-- `BthfAudioState::from_u32` (the `FromPrimitive` derive): maps a `u32`
to the variant with that discriminant (0..3), `none` otherwise.
`impl From<u32> for BthfAudioState` (hfp.rs lines 73-77) unwraps this,
so `none` models the panic on a value outside the enumeration. -/
def BthfAudioState.from_u32 (v : Nat) : Option BthfAudioState :=
  match v with
  | 0 => some .Disconnected
  | 1 => some .Connecting
  | 2 => some .Connected
  | 3 => some .Disconnecting
  | _ => none

/-- `HfpCodecBitId` (hfp.rs lines 81-89): a `bitflags` bit-set over an
`i32`, used for codec-negotiation methods that do not concern the coding
format. The bitflags crate keeps the raw bits; validated construction is
`from_bits` below. -/
structure HfpCodecBitId where
  bits : Int
  deriving DecidableEq, Repr

namespace HfpCodecBitId

def NONE : HfpCodecBitId := ⟨0b000⟩

def CVSD : HfpCodecBitId := ⟨0b001⟩

def MSBC : HfpCodecBitId := ⟨0b010⟩

def LC3 : HfpCodecBitId := ⟨0b100⟩

/-- `HfpCodecBitId::all().bits()`: the union of every defined flag. -/
def all_bits : Int := 0b111

/-- The bitflags `from_bits` constructor: succeeds iff the value carries
no bit outside the defined flags (`bits & !all == 0`).
`impl TryFrom<i32> for HfpCodecBitId` (hfp.rs lines 105-110) is exactly
this, with `none` modelling `Err(())` (the spec's `InvalidCodec`). -/
def from_bits (v : Int) : Option HfpCodecBitId :=
  if Int.land v (Int.not all_bits) = 0 then some ⟨v⟩ else none

/-- The bitflags invariant on an already-constructed value: no bit
outside the defined flags. -/
def isValid (s : HfpCodecBitId) : Bool :=
  Int.land s.bits (Int.not all_bits) == 0

/-- The bitflags `|` operator: bit-set union. -/
def union (a b : HfpCodecBitId) : HfpCodecBitId :=
  ⟨Int.lor a.bits b.bits⟩

end HfpCodecBitId

/-- `HfpCodecFormat` (hfp.rs lines 112-121): a `bitflags` bit-set over an
`i32` of negotiable coding formats. -/
structure HfpCodecFormat where
  bits : Int
  deriving DecidableEq, Repr

namespace HfpCodecFormat

def NONE : HfpCodecFormat := ⟨0b0000⟩

def CVSD : HfpCodecFormat := ⟨0b0001⟩

def MSBC_TRANSPARENT : HfpCodecFormat := ⟨0b0010⟩

def MSBC : HfpCodecFormat := ⟨0b0100⟩

def LC3_TRANSPARENT : HfpCodecFormat := ⟨0b1000⟩

/-- `HfpCodecFormat::all().bits()`: the union of every defined flag. -/
def all_bits : Int := 0b1111

/-- The bitflags `from_bits` constructor: succeeds iff the value carries
no bit outside the defined flags (`bits & !all == 0`). -/
def from_bits (v : Int) : Option HfpCodecFormat :=
  if Int.land v (Int.not all_bits) = 0 then some ⟨v⟩ else none

/-- `impl TryFrom<i32> for HfpCodecFormat` (hfp.rs lines 130-135):
`Self::from_bits(val).ok_or(())`, with `none` modelling `Err(())`
(the spec's `InvalidCodec`). -/
def try_from (v : Int) : Option HfpCodecFormat :=
  from_bits v

/-- The bitflags invariant on an already-constructed value: no bit
outside the defined flags. -/
def isValid (s : HfpCodecFormat) : Bool :=
  Int.land s.bits (Int.not all_bits) == 0

/-- The bitflags `|` operator: bit-set union. -/
def union (a b : HfpCodecFormat) : HfpCodecFormat :=
  ⟨Int.lor a.bits b.bits⟩

end HfpCodecFormat

/-- `ffi::TelephonyDeviceStatus` (hfp.rs lines 144-150). -/
structure TelephonyDeviceStatus where
  network_available : Bool
  roaming : Bool
  signal_strength : Int
  battery_level : Int
  deriving DecidableEq, Repr

/-- `TelephonyDeviceStatus::new` (hfp.rs lines 269-278). -/
def TelephonyDeviceStatus.new : TelephonyDeviceStatus :=
  { network_available := true, roaming := false
    signal_strength := 5, battery_level := 5 }

/-- `ffi::CallState` (hfp.rs lines 152-160). -/
inductive CallState where
  | Idle
  | Incoming
  | Dialing
  | Alerting
  | Active
  | Held
  deriving DecidableEq, Repr

/-- `ffi::CallInfo` (hfp.rs lines 162-168). -/
structure CallInfo where
  index : Int
  dir_incoming : Bool
  state : CallState
  number : String
  deriving DecidableEq, Repr

/-- `ffi::PhoneState` (hfp.rs lines 170-175). -/
structure PhoneState where
  num_active : Int
  num_held : Int
  state : CallState
  deriving DecidableEq, Repr

/-- `ffi::CallHoldCommand` (hfp.rs lines 177-185); `AddHeldToConf` is
accepted but not functionally implemented, still surfaced to the
subscriber. -/
inductive CallHoldCommand where
  | ReleaseHeld
  | ReleaseActiveAcceptHeld
  | HoldActiveAcceptHeld
  | AddHeldToConf
  deriving DecidableEq, Repr

/-- `HfpCallbacks` (hfp.rs lines 285-302): the tagged event union
delivered to the single registered subscriber. The `f64` packet-loss
ratio of `DebugDump` is kept as `Float`; no claim inspects it. -/
inductive HfpCallbacks where
  | ConnectionState (state : BthfConnectionState) (addr : RawAddress)
  | AudioState (state : BthfAudioState) (addr : RawAddress)
  | VolumeUpdate (volume : Nat) (addr : RawAddress)
  | MicVolumeUpdate (volume : Nat) (addr : RawAddress)
  | VendorSpecificAtCommand (at_string : String) (addr : RawAddress)
  | BatteryLevelUpdate (battery_level : Nat) (addr : RawAddress)
  | WbsCapsUpdate (wbs_supported : Bool) (addr : RawAddress)
  | SwbCapsUpdate (swb_supported : Bool) (addr : RawAddress)
  | IndicatorQuery (addr : RawAddress)
  | CurrentCallsQuery (addr : RawAddress)
  | AnswerCall (addr : RawAddress)
  | HangupCall (addr : RawAddress)
  | DialCall (number : String) (addr : RawAddress)
  | CallHold (chld : CallHoldCommand) (addr : RawAddress)
  | DebugDump (active : Bool) (codec_id : Nat) (total_num_decoded_frames : Int)
      (pkt_loss_ratio : Float) (begin_ts : Nat) (end_ts : Nat)
      (pkt_status_in_hex : String) (pkt_status_in_binary : String)

/-- `hfp_connection_state_callback` (hfp.rs lines 310-313). Modelled from
the spec for the wrapper: `cb_variant!` (topshim_macros, not under src/)
generates a callback that converts each raw argument and forwards the
resulting event to the registered subscriber (§4.5, §6); the value
returned here is the event delivered. The `u32 → BthfConnectionState`
conversion is `impl From<u32>` (hfp.rs lines 58-62, under src/), whose
unwrap panics on a value outside the enumeration — modelled by `none`. -/
def hfp_connection_state_callback (state : Nat) (addr : RawAddress) :
    Option HfpCallbacks :=
  (BthfConnectionState.from_u32 state).map
    (fun s => HfpCallbacks.ConnectionState s addr)

/-- `hfp_audio_state_callback` (hfp.rs lines 315-318), modelled like
`hfp_connection_state_callback`; the `u32 → BthfAudioState` conversion
(hfp.rs lines 73-77) panics on a value outside the enumeration —
modelled by `none`. -/
def hfp_audio_state_callback (state : Nat) (addr : RawAddress) :
    Option HfpCallbacks :=
  (BthfAudioState.from_u32 state).map
    (fun s => HfpCallbacks.AudioState s addr)

/-- Modelled from the spec: `BtStatus` lives in btif.rs, which is not
under src/. Per §7 it is the uniform status taxonomy returned by gateway
operations, with `NotReady` the "profile not enabled" status;
transport-reported codes are passed through otherwise. Only the
existence and fixed encoding of `NotReady` matter to the claims. -/
inductive BtStatus where
  | Success
  | Fail
  | NotReady
  | Unknown
  deriving DecidableEq, Repr

/-- Modelled from the spec: `BtStatus::from(u32)` (btif.rs, not under
src/) normalizes a raw transport code to a status (§6: "each returning
an integer or boolean result that this core normalizes to a status"). -/
def BtStatus.from_u32 (v : Nat) : BtStatus :=
  match v with
  | 0 => .Success
  | 1 => .Fail
  | 2 => .NotReady
  | _ => .Unknown

/-- Modelled from the spec: `BtStatus::NotReady.into()` — the integer
encoding (discriminant) of a status, from btif.rs (not under src/). -/
def BtStatus.to_i32 : BtStatus → Int
  | .Success => 0
  | .Fail => 1
  | .NotReady => 2
  | .Unknown => 0xff

/-- The external C++ transport (`ffi::HfpIntf`, hfp.rs lines 187-233),
out of scope per §1: an oracle of pure functions giving the raw value
each transport call returns. -/
structure HfpIntf where
  connect : RawAddress → Nat
  connect_audio : RawAddress → Bool → Int → Int
  set_active_device : RawAddress → Int
  set_volume : Int → RawAddress → Int
  set_mic_volume : Int → RawAddress → Nat
  disconnect : RawAddress → Nat
  disconnect_audio : RawAddress → Int
  device_status_notification : TelephonyDeviceStatus → RawAddress → Nat
  indicator_query_response : TelephonyDeviceStatus → PhoneState → RawAddress → Nat
  current_calls_query_response : List CallInfo → RawAddress → Nat
  phone_state_change : PhoneState → String → RawAddress → Nat
  simple_at_response : Bool → RawAddress → Nat

/-- One call into the external transport, with the arguments forwarded;
gateway operations report the exact list of these they performed. -/
inductive TransportCall where
  | init
  | connect (addr : RawAddress)
  | connect_audio (addr : RawAddress) (sco_offload : Bool) (disabled_codecs : Int)
  | set_active_device (addr : RawAddress)
  | set_volume (volume : Int) (addr : RawAddress)
  | set_mic_volume (volume : Int) (addr : RawAddress)
  | disconnect (addr : RawAddress)
  | disconnect_audio (addr : RawAddress)
  | device_status_notification (status : TelephonyDeviceStatus) (addr : RawAddress)
  | indicator_query_response (device_status : TelephonyDeviceStatus)
      (phone_state : PhoneState) (addr : RawAddress)
  | current_calls_query_response (call_list : List CallInfo) (addr : RawAddress)
  | phone_state_change (phone_state : PhoneState) (number : String) (addr : RawAddress)
  | simple_at_response (ok : Bool) (addr : RawAddress)
  | debug_dump
  | cleanup
  deriving DecidableEq, Repr

/-- `Hfp` (hfp.rs lines 385-389): the transport handle plus the
`_is_init` and `_is_enabled` flags. -/
structure Hfp where
  internal : HfpIntf
  is_init : Bool
  is_enabled : Bool

/-- The observable outcome of one gateway operation: the value returned
to the caller, the `Hfp` object afterwards, and the transport calls it
performed (in order). -/
structure OpResult (α : Type) where
  ret : α
  hfp : Hfp
  calls : List TransportCall

/-- `ToggleableProfile::enable` for `Hfp` (hfp.rs lines 399-403):
calls the transport's `init` and sets `_is_enabled`. -/
def Hfp.enable (self : Hfp) : OpResult Bool :=
  ⟨true, { self with is_enabled := true }, [.init]⟩

/-- `ToggleableProfile::disable` for `Hfp` (hfp.rs lines 405-410).
Modelled from the spec for the guard: `#[profile_enabled_or(d)]`
(topshim_macros, not under src/) returns `d` without running the body
when the profile is not enabled (§4.4: "calling any operation before
enablement fails fast ... rather than forwarding to the transport"). -/
def Hfp.disable (self : Hfp) : OpResult Bool :=
  if self.is_enabled then
    ⟨true, { self with is_enabled := false }, [.cleanup]⟩
  else ⟨false, self, []⟩

/-- `Hfp::initialize` (hfp.rs lines 427-433), named `initCallbacks`
here. Modelled from the spec for the dispatcher table:
`get_dispatchers().set` (topstack.rs, not under src/) reports whether a
dispatcher for this profile already existed, installing the new one
(§4.5: registration is one-shot). On a second registration the source
panics ("Tried to set dispatcher for HFP callbacks while it already
exists") — modelled by `none`; otherwise the result carries the `true`
returned to the caller, the `Hfp` with `_is_init` set, and the
now-occupied slot. -/
def Hfp.initCallbacks (self : Hfp) (slotOccupied : Bool) :
    Option (Bool × Hfp × Bool) :=
  if slotOccupied then none
  else some (true, { self with is_init := true }, true)

/-- `Hfp::connect` (hfp.rs lines 435-438), guarded by
`#[profile_enabled_or(BtStatus::NotReady)]` (guard modelled from the
spec, see `Hfp.disable`). -/
def Hfp.connect (self : Hfp) (addr : RawAddress) : OpResult BtStatus :=
  if self.is_enabled then
    ⟨BtStatus.from_u32 (self.internal.connect addr), self, [.connect addr]⟩
  else ⟨.NotReady, self, []⟩

/-- `Hfp::connect_audio` (hfp.rs lines 440-448), guarded by
`#[profile_enabled_or(BtStatus::NotReady.into())]`; on the enabled path
the transport's raw `i32` is returned unchanged (passthrough). -/
def Hfp.connect_audio (self : Hfp) (addr : RawAddress) (sco_offload : Bool)
    (disabled_codecs : Int) : OpResult Int :=
  if self.is_enabled then
    ⟨self.internal.connect_audio addr sco_offload disabled_codecs, self,
      [.connect_audio addr sco_offload disabled_codecs]⟩
  else ⟨BtStatus.NotReady.to_i32, self, []⟩

/-- `Hfp::set_active_device` (hfp.rs lines 450-453): passthrough of the
transport's raw `i32`, guarded like `Hfp.connect_audio`. -/
def Hfp.set_active_device (self : Hfp) (addr : RawAddress) : OpResult Int :=
  if self.is_enabled then
    ⟨self.internal.set_active_device addr, self, [.set_active_device addr]⟩
  else ⟨BtStatus.NotReady.to_i32, self, []⟩

/-- `Hfp::set_volume` (hfp.rs lines 455-458): passthrough of the
transport's raw `i32`, guarded like `Hfp.connect_audio`. -/
def Hfp.set_volume (self : Hfp) (volume : Int) (addr : RawAddress) : OpResult Int :=
  if self.is_enabled then
    ⟨self.internal.set_volume volume addr, self, [.set_volume volume addr]⟩
  else ⟨BtStatus.NotReady.to_i32, self, []⟩

/-- `Hfp::set_mic_volume` (hfp.rs lines 460-463): the transport's `u32`
is normalized through `BtStatus::from`; the guard default
`BtStatus::NotReady.into()` is the identity conversion into `BtStatus`. -/
def Hfp.set_mic_volume (self : Hfp) (volume : Int) (addr : RawAddress) :
    OpResult BtStatus :=
  if self.is_enabled then
    ⟨BtStatus.from_u32 (self.internal.set_mic_volume volume addr), self,
      [.set_mic_volume volume addr]⟩
  else ⟨.NotReady, self, []⟩

/-- `Hfp::disconnect` (hfp.rs lines 465-468), guarded by
`#[profile_enabled_or(BtStatus::NotReady)]`. -/
def Hfp.disconnect (self : Hfp) (addr : RawAddress) : OpResult BtStatus :=
  if self.is_enabled then
    ⟨BtStatus.from_u32 (self.internal.disconnect addr), self, [.disconnect addr]⟩
  else ⟨.NotReady, self, []⟩

/-- `Hfp::disconnect_audio` (hfp.rs lines 470-473): passthrough of the
transport's raw `i32`, guarded like `Hfp.connect_audio`. -/
def Hfp.disconnect_audio (self : Hfp) (addr : RawAddress) : OpResult Int :=
  if self.is_enabled then
    ⟨self.internal.disconnect_audio addr, self, [.disconnect_audio addr]⟩
  else ⟨BtStatus.NotReady.to_i32, self, []⟩

/-- `Hfp::device_status_notification` (hfp.rs lines 475-482). -/
def Hfp.device_status_notification (self : Hfp) (status : TelephonyDeviceStatus)
    (addr : RawAddress) : OpResult BtStatus :=
  if self.is_enabled then
    ⟨BtStatus.from_u32 (self.internal.device_status_notification status addr), self,
      [.device_status_notification status addr]⟩
  else ⟨.NotReady, self, []⟩

/-- `Hfp::indicator_query_response` (hfp.rs lines 484-496). -/
def Hfp.indicator_query_response (self : Hfp) (device_status : TelephonyDeviceStatus)
    (phone_state : PhoneState) (addr : RawAddress) : OpResult BtStatus :=
  if self.is_enabled then
    ⟨BtStatus.from_u32
        (self.internal.indicator_query_response device_status phone_state addr), self,
      [.indicator_query_response device_status phone_state addr]⟩
  else ⟨.NotReady, self, []⟩

/-- `Hfp::current_calls_query_response` (hfp.rs lines 498-505). -/
def Hfp.current_calls_query_response (self : Hfp) (call_list : List CallInfo)
    (addr : RawAddress) : OpResult BtStatus :=
  if self.is_enabled then
    ⟨BtStatus.from_u32 (self.internal.current_calls_query_response call_list addr),
      self, [.current_calls_query_response call_list addr]⟩
  else ⟨.NotReady, self, []⟩

/-- `Hfp::phone_state_change` (hfp.rs lines 507-515). -/
def Hfp.phone_state_change (self : Hfp) (phone_state : PhoneState) (number : String)
    (addr : RawAddress) : OpResult BtStatus :=
  if self.is_enabled then
    ⟨BtStatus.from_u32 (self.internal.phone_state_change phone_state number addr),
      self, [.phone_state_change phone_state number addr]⟩
  else ⟨.NotReady, self, []⟩

/-- `Hfp::simple_at_response` (hfp.rs lines 517-520). -/
def Hfp.simple_at_response (self : Hfp) (ok : Bool) (addr : RawAddress) :
    OpResult BtStatus :=
  if self.is_enabled then
    ⟨BtStatus.from_u32 (self.internal.simple_at_response ok addr), self,
      [.simple_at_response ok addr]⟩
  else ⟨.NotReady, self, []⟩

/-- `Hfp::debug_dump` (hfp.rs lines 522-525): the body forwards to the
transport's `debug_dump`, but the method carries the bare
`#[profile_enabled_or]` attribute, so when the profile is not enabled it
returns `()` without any transport call (guard modelled from the spec,
see `Hfp.disable`). -/
def Hfp.debug_dump (self : Hfp) : OpResult Unit :=
  if self.is_enabled then ⟨(), self, [.debug_dump]⟩
  else ⟨(), self, []⟩

/-- `Hfp::cleanup` (hfp.rs lines 527-531): calls the transport's
`cleanup` when enabled and returns `true`, leaving both flags unchanged;
when not enabled the guard returns `false` with no transport call. -/
def Hfp.cleanup (self : Hfp) : OpResult Bool :=
  if self.is_enabled then ⟨true, self, [.cleanup]⟩
  else ⟨false, self, []⟩

/-- Modelled from the spec: §4.2's per-device Connection State Machine is
implemented above this shim, not under src/ (the shim only forwards the
state-change events of hfp.rs lines 285-302). One event driving the
machine for a single device, following §4.2's transition lists exactly. -/
inductive SmEvent where
  | connectRequested
  | transportConfirmsConnect
  | slcNegotiationComplete
  | disconnectRequested
  | teardownComplete
  | audioConnectRequested
  | audioConfirmed
  | audioTeardown
  | audioTeardownComplete
  deriving DecidableEq, Repr, Fintype

/-- Modelled from the spec: the per-device state of §4.2 — the signaling
channel and the independent audio channel. -/
structure DeviceState where
  conn : BthfConnectionState
  audio : BthfAudioState
  deriving DecidableEq, Repr, Fintype

/-- Modelled from the spec (§3): per-device state starts fully
disconnected and is reconstructed from the first connection event. -/
def DeviceState.initial : DeviceState :=
  ⟨.Disconnected, .Disconnected⟩

/-- Modelled from the spec: §4.2's transitions. Invalid transition
requests cause no state change ("rejected ... rather than causing a
state change"). The audio channel is gated by signaling ≥ Connected
("AudioState may only leave Disconnected while ConnectionState is at
least Connected", §3); on full teardown the per-device state is
destroyed, i.e. reset to Disconnected (§3). -/
def smStep (s : DeviceState) (e : SmEvent) : DeviceState :=
  match e with
  | .connectRequested =>
      if s.conn = .Disconnected then { s with conn := .Connecting } else s
  | .transportConfirmsConnect =>
      if s.conn = .Connecting then { s with conn := .Connected } else s
  | .slcNegotiationComplete =>
      if s.conn = .Connected then { s with conn := .SlcConnected } else s
  | .disconnectRequested =>
      if s.conn = .Connecting ∨ s.conn = .Connected ∨ s.conn = .SlcConnected then
        { s with conn := .Disconnecting }
      else s
  | .teardownComplete =>
      if s.conn = .Disconnecting then DeviceState.initial else s
  | .audioConnectRequested =>
      if (s.conn = .Connected ∨ s.conn = .SlcConnected) ∧ s.audio = .Disconnected then
        { s with audio := .Connecting }
      else s
  | .audioConfirmed =>
      if s.audio = .Connecting then { s with audio := .Connected } else s
  | .audioTeardown =>
      if s.audio = .Connecting ∨ s.audio = .Connected then
        { s with audio := .Disconnecting }
      else s
  | .audioTeardownComplete =>
      if s.audio = .Disconnecting then { s with audio := .Disconnected } else s

/-- The state of one device after a sequence of §4.2 events, starting
from the initial (fully disconnected) state. Every reachable state of
the machine is `smRun evs` for some event list `evs`. -/
def smRun (evs : List SmEvent) : DeviceState :=
  evs.foldl smStep DeviceState.initial

/-- The §8 invariant: whenever the audio channel is not Disconnected,
the signaling channel is Connected, ServiceLevelConnected or
Disconnecting. -/
def audioConnInvariant (s : DeviceState) : Prop :=
  s.audio ≠ .Disconnected →
    (s.conn = .Connected ∨ s.conn = .SlcConnected ∨ s.conn = .Disconnecting)

instance (s : DeviceState) : Decidable (audioConnInvariant s) := by
  unfold audioConnInvariant; infer_instance

/-- `Nat.ldiff` against a low-bit mask is zero exactly on values below
the mask's width: the arithmetic heart of the bitflags `from_bits`
validation. -/
lemma ldiff_mask_eq_zero_iff (k m : Nat) :
    Nat.ldiff m (2 ^ k - 1) = 0 ↔ m < 2 ^ k := by
  constructor
  · intro h
    apply Nat.lt_pow_two_of_testBit
    intro i hi
    have ht : Nat.testBit (Nat.ldiff m (2 ^ k - 1)) i = Nat.testBit 0 i := by rw [h]
    rw [Nat.testBit_ldiff, Nat.zero_testBit, Nat.testBit_two_pow_sub_one] at ht
    simpa [show ¬(i < k) by omega] using ht
  · intro h
    apply Nat.eq_of_testBit_eq
    intro i
    rw [Nat.testBit_ldiff, Nat.zero_testBit, Nat.testBit_two_pow_sub_one]
    by_cases hik : i < k
    · simp [hik]
    · have hm : Nat.testBit m i = false :=
        Nat.testBit_lt_two_pow
          (lt_of_lt_of_le h (Nat.pow_le_pow_right (by omega) (by omega)))
      simp [hm]

/-- The two's-complement reading of the bitflags validity check: an
`i32` has no bit outside the low `k` positions iff it lies in
`[0, 2 ^ k)`. -/
lemma land_not_mask_eq_zero_iff (k : Nat) (v : Int) :
    Int.land v (Int.not (Int.ofNat (2 ^ k - 1))) = 0 ↔
      0 ≤ v ∧ v < Int.ofNat (2 ^ k) := by
  cases v with
  | ofNat m =>
      show (Int.land (Int.ofNat m) (Int.negSucc (2 ^ k - 1)) = 0) ↔ _
      have hdef : Int.land (Int.ofNat m) (Int.negSucc (2 ^ k - 1)) =
          Int.ofNat (Nat.ldiff m (2 ^ k - 1)) := rfl
      rw [hdef]
      constructor
      · intro h
        exact ⟨Int.ofNat_nonneg m,
          Int.ofNat_lt.mpr
            ((ldiff_mask_eq_zero_iff k m).mp (Int.ofNat_eq_zero.mp h))⟩
      · rintro ⟨-, h⟩
        exact Int.ofNat_eq_zero.mpr
          ((ldiff_mask_eq_zero_iff k m).mpr (Int.ofNat_lt.mp h))
  | negSucc m =>
      constructor
      · intro h
        exact absurd h (by
          show Int.land (Int.negSucc m) (Int.negSucc (2 ^ k - 1)) ≠ 0
          have hdef : Int.land (Int.negSucc m) (Int.negSucc (2 ^ k - 1)) =
              Int.negSucc (Nat.lor m (2 ^ k - 1)) := rfl
          rw [hdef]
          exact Int.negSucc_ne_zero _)
      · rintro ⟨h, -⟩
        exact absurd h (Int.negSucc_not_nonneg m).mp

/-- Validity of an `HfpCodecBitId` value is exactly the bound [0, 8). -/
lemma bitId_isValid_iff (s : HfpCodecBitId) :
    s.isValid = true ↔ 0 ≤ s.bits ∧ s.bits < 8 := by
  rw [HfpCodecBitId.isValid, beq_iff_eq]
  have h := land_not_mask_eq_zero_iff 3 s.bits
  rw [show (Int.ofNat (2 ^ 3)) = (8 : Int) from rfl] at h
  exact h

/-- Validity of an `HfpCodecFormat` value is exactly the bound [0, 16). -/
lemma format_isValid_iff (s : HfpCodecFormat) :
    s.isValid = true ↔ 0 ≤ s.bits ∧ s.bits < 16 := by
  rw [HfpCodecFormat.isValid, beq_iff_eq]
  have h := land_not_mask_eq_zero_iff 4 s.bits
  rw [show (Int.ofNat (2 ^ 4)) = (16 : Int) from rfl] at h
  exact h

/-- A concrete transport oracle for witnesses: each call returns a fixed
distinctive raw value. -/
def sampleIntf : HfpIntf where
  connect := fun _ => 20
  connect_audio := fun _ _ _ => 21
  set_active_device := fun _ => 22
  set_volume := fun _ _ => 23
  set_mic_volume := fun _ _ => 24
  disconnect := fun _ => 25
  disconnect_audio := fun _ => 26
  device_status_notification := fun _ _ => 27
  indicator_query_response := fun _ _ _ => 28
  current_calls_query_response := fun _ _ => 29
  phone_state_change := fun _ _ _ => 30
  simple_at_response := fun _ _ => 31

/-- A concrete six-octet device address for witnesses. -/
def sampleAddr : RawAddress := ⟨[0, 1, 2, 3, 4, 5]⟩

/-- A concrete `Hfp` whose profile has not been enabled. -/
def hfpDisabled : Hfp := ⟨sampleIntf, false, false⟩

/-- A concrete `Hfp` whose profile is initialized and enabled. -/
def hfpEnabled : Hfp := ⟨sampleIntf, true, true⟩

/-- C1: with the profile not enabled, every Command Gateway operation —
connect, connect_audio, set_active_device, set_volume, set_mic_volume,
disconnect, disconnect_audio, device_status_notification,
indicator_query_response, current_calls_query_response,
phone_state_change, simple_at_response — returns the NotReady status (or
its integer encoding) synchronously, performs no transport call, and
leaves the Hfp object unchanged. -/
theorem C1_disabled_ops_not_ready (hfp : Hfp) (h : hfp.is_enabled = false)
    (addr : RawAddress) (sco : Bool) (codecs : Int) (vol : Int)
    (status : TelephonyDeviceStatus) (ps : PhoneState) (cl : List CallInfo)
    (number : String) (ok : Bool) :
    hfp.connect addr = ⟨.NotReady, hfp, []⟩ ∧
    hfp.connect_audio addr sco codecs = ⟨BtStatus.NotReady.to_i32, hfp, []⟩ ∧
    hfp.set_active_device addr = ⟨BtStatus.NotReady.to_i32, hfp, []⟩ ∧
    hfp.set_volume vol addr = ⟨BtStatus.NotReady.to_i32, hfp, []⟩ ∧
    hfp.set_mic_volume vol addr = ⟨.NotReady, hfp, []⟩ ∧
    hfp.disconnect addr = ⟨.NotReady, hfp, []⟩ ∧
    hfp.disconnect_audio addr = ⟨BtStatus.NotReady.to_i32, hfp, []⟩ ∧
    hfp.device_status_notification status addr = ⟨.NotReady, hfp, []⟩ ∧
    hfp.indicator_query_response status ps addr = ⟨.NotReady, hfp, []⟩ ∧
    hfp.current_calls_query_response cl addr = ⟨.NotReady, hfp, []⟩ ∧
    hfp.phone_state_change ps number addr = ⟨.NotReady, hfp, []⟩ ∧
    hfp.simple_at_response ok addr = ⟨.NotReady, hfp, []⟩ := by
  refine ⟨?_, ?_, ?_, ?_, ?_, ?_, ?_, ?_, ?_, ?_, ?_, ?_⟩ <;>
    simp [Hfp.connect, Hfp.connect_audio, Hfp.set_active_device, Hfp.set_volume,
      Hfp.set_mic_volume, Hfp.disconnect, Hfp.disconnect_audio,
      Hfp.device_status_notification, Hfp.indicator_query_response,
      Hfp.current_calls_query_response, Hfp.phone_state_change,
      Hfp.simple_at_response, h]

/-- C1 witness: the guard refuses `connect` on a concrete disabled
profile, with no transport call and no state change. -/
theorem C1_disabled_ops_not_ready_witness :
    hfpDisabled.is_enabled = false ∧
    hfpDisabled.connect sampleAddr = ⟨.NotReady, hfpDisabled, []⟩ ∧
    hfpDisabled.connect_audio sampleAddr false 0 =
      ⟨BtStatus.NotReady.to_i32, hfpDisabled, []⟩ :=
  ⟨rfl,
    (C1_disabled_ops_not_ready hfpDisabled rfl sampleAddr false 0 3
      TelephonyDeviceStatus.new ⟨0, 0, .Idle⟩ [] "" true).1,
    (C1_disabled_ops_not_ready hfpDisabled rfl sampleAddr false 0 3
      TelephonyDeviceStatus.new ⟨0, 0, .Idle⟩ [] "" true).2.1⟩

/-- C2 counterexample: the transport delivering the out-of-enumeration
value 5 to the connection-state callback yields no dispatched event:
`none` models the panic of the `From<u32>` unwrap (hfp.rs line 60), so
the callback crashes instead of completing, refuting the claim that it
completes for all u32 inputs. -/
theorem C2_out_of_range_counterexample :
    hfp_connection_state_callback 5 sampleAddr = none ∧
    hfp_audio_state_callback 4 sampleAddr = none := by
  exact ⟨rfl, rfl⟩

/-- C2 (amended): for every u32 value inside the defined enumerations
(connection states 0..4, audio states 0..3), delivered at any time — the
callbacks consult no profile state, so enablement and prior callback
order are irrelevant — the callback completes and dispatches the
corresponding event to the subscriber; for values outside the
enumerations the `From<u32>` unwrap panics (the callback does not
complete). -/
theorem C2_in_range_callbacks_dispatch (state : Nat) (addr : RawAddress) :
    (state < 5 → ∃ c, hfp_connection_state_callback state addr =
        some (HfpCallbacks.ConnectionState c addr)) ∧
    (state < 4 → ∃ a, hfp_audio_state_callback state addr =
        some (HfpCallbacks.AudioState a addr)) := by
  constructor
  · intro h
    interval_cases state <;> exact ⟨_, rfl⟩
  · intro h
    interval_cases state <;> exact ⟨_, rfl⟩

/-- C2 witness: concrete in-range values dispatch events. -/
theorem C2_in_range_callbacks_dispatch_witness :
    (2 < 5 ∧ ∃ c, hfp_connection_state_callback 2 sampleAddr =
        some (HfpCallbacks.ConnectionState c sampleAddr)) ∧
    (3 < 4 ∧ ∃ a, hfp_audio_state_callback 3 sampleAddr =
        some (HfpCallbacks.AudioState a sampleAddr)) :=
  ⟨⟨by decide, (C2_in_range_callbacks_dispatch 2 sampleAddr).1 (by decide)⟩,
   ⟨by decide, (C2_in_range_callbacks_dispatch 3 sampleAddr).2 (by decide)⟩⟩

/-- The success set named by claim C3: an i32 whose bits all lie within
the four defined positions, i.e. a sum of a subset of
{CVSD = 0b0001, MSBC_TRANSPARENT = 0b0010, MSBC = 0b0100,
LC3_TRANSPARENT = 0b1000}. -/
def withinFormatBits (v : Int) : Prop :=
  ∃ b0 b1 b2 b3 : Bool,
    v = (cond b0 HfpCodecFormat.CVSD.bits 0) +
        (cond b1 HfpCodecFormat.MSBC_TRANSPARENT.bits 0) +
        (cond b2 HfpCodecFormat.MSBC.bits 0) +
        (cond b3 HfpCodecFormat.LC3_TRANSPARENT.bits 0)

instance (v : Int) : Decidable (withinFormatBits v) := by
  unfold withinFormatBits; infer_instance

/-- The claim's success set is exactly the interval [0, 16). -/
lemma withinFormatBits_iff (v : Int) : withinFormatBits v ↔ 0 ≤ v ∧ v < 16 := by
  constructor
  · rintro ⟨b0, b1, b2, b3, rfl⟩
    cases b0 <;> cases b1 <;> cases b2 <;> cases b3 <;> decide
  · rintro ⟨h0, h1⟩
    interval_cases v <;> decide

/-- C3: codec bit-set validation accepts the raw integer 0 (NONE), and
for every i32 it succeeds exactly on values whose bits all lie within
the four defined bit positions, failing with the invalid-codec error
(`Err(())`, modelled `none`) on every value with a bit outside them. -/
theorem C3_codec_bitset_validation :
    HfpCodecFormat.try_from 0 = some HfpCodecFormat.NONE ∧
    ∀ v : Int,
      (HfpCodecFormat.try_from v = some ⟨v⟩ ↔ withinFormatBits v) ∧
      (HfpCodecFormat.try_from v = none ↔ ¬ withinFormatBits v) := by
  refine ⟨?_, fun v => ?_⟩
  · have h0 : Int.land (0 : Int) (Int.not HfpCodecFormat.all_bits) = 0 :=
      (land_not_mask_eq_zero_iff 4 0).mpr ⟨le_refl 0, by decide⟩
    simp only [HfpCodecFormat.try_from, HfpCodecFormat.from_bits, if_pos h0]
    rfl
  have hch : Int.land v (Int.not HfpCodecFormat.all_bits) = 0 ↔ withinFormatBits v := by
    rw [withinFormatBits_iff]
    have h := land_not_mask_eq_zero_iff 4 v
    rw [show (Int.ofNat (2 ^ 4 - 1)) = HfpCodecFormat.all_bits from rfl,
      show (Int.ofNat (2 ^ 4)) = (16 : Int) from rfl] at h
    exact h
  by_cases hv : Int.land v (Int.not HfpCodecFormat.all_bits) = 0
  · have he : HfpCodecFormat.try_from v = some ⟨v⟩ := by
      simp only [HfpCodecFormat.try_from, HfpCodecFormat.from_bits, if_pos hv]
    refine ⟨⟨fun _ => hch.mp hv, fun _ => he⟩,
      ⟨fun hn => ?_, fun hn => absurd (hch.mp hv) hn⟩⟩
    rw [he] at hn; cases hn
  · have he : HfpCodecFormat.try_from v = none := by
      simp only [HfpCodecFormat.try_from, HfpCodecFormat.from_bits, if_neg hv]
    refine ⟨⟨fun hs => ?_, fun hw => absurd (hch.mpr hw) hv⟩,
      ⟨fun _ => fun hw => hv (hch.mpr hw), fun _ => he⟩⟩
    rw [he] at hs; cases hs

/-- C3 witness: 5 = CVSD ∪ MSBC is accepted, while 16 (a bit above the
defined positions) and -1 (all bits set) are rejected. -/
theorem C3_codec_bitset_validation_witness :
    HfpCodecFormat.try_from 5 = some ⟨5⟩ ∧
    HfpCodecFormat.try_from 16 = none ∧
    HfpCodecFormat.try_from (-1) = none :=
  ⟨((C3_codec_bitset_validation.2 5).1).mpr (by decide),
   ((C3_codec_bitset_validation.2 16).2).mpr (by decide),
   ((C3_codec_bitset_validation.2 (-1)).2).mpr (by decide)⟩

/-- C4: registering a second event subscriber — `Hfp::initialize`
(`initCallbacks` here) with the dispatcher slot already occupied — is a
fatal error: the source panics (modelled `none`), so the first
subscriber is never silently replaced; with no subscriber present,
initialize installs the dispatcher (slot becomes occupied), marks the
profile initialized and returns true. -/
theorem C4_one_shot_registration (hfp : Hfp) :
    hfp.initCallbacks true = none ∧
    hfp.initCallbacks false = some (true, { hfp with is_init := true }, true) := by
  constructor <;> rfl

/-- C5 counterexample: with the profile disabled, `debug_dump` makes no
transport call at all — in particular it does not trigger the
diagnostic snapshot — refuting "always permitted ... triggers the
transport's diagnostic snapshot" for the disabled state. -/
theorem C5_disabled_no_snapshot_counterexample :
    hfpDisabled.debug_dump.calls = [] ∧
    TransportCall.debug_dump ∉ hfpDisabled.debug_dump.calls := by
  exact ⟨by decide, by decide⟩

/-- C5 (amended): `debug_dump` is guarded by enablement like the other
operations: when the profile is enabled it triggers the transport's
diagnostic snapshot; when disabled it returns without invoking the
transport (bare `#[profile_enabled_or]`, hfp.rs line 522). -/
theorem C5_debug_dump_guarded (hfp : Hfp) :
    (hfp.is_enabled = true → hfp.debug_dump = ⟨(), hfp, [.debug_dump]⟩) ∧
    (hfp.is_enabled = false → hfp.debug_dump = ⟨(), hfp, []⟩) := by
  constructor <;> intro h <;> simp [Hfp.debug_dump, h]

/-- C5 witness at concrete enabled and disabled profiles. -/
theorem C5_debug_dump_guarded_witness :
    (hfpEnabled.is_enabled = true ∧
      hfpEnabled.debug_dump = ⟨(), hfpEnabled, [.debug_dump]⟩) ∧
    (hfpDisabled.is_enabled = false ∧
      hfpDisabled.debug_dump = ⟨(), hfpDisabled, []⟩) :=
  ⟨⟨rfl, (C5_debug_dump_guarded hfpEnabled).1 rfl⟩,
   ⟨rfl, (C5_debug_dump_guarded hfpDisabled).2 rfl⟩⟩

/-- C6: when the profile is enabled, the passthrough operations
connect_audio, set_active_device, set_volume and disconnect_audio
return to the caller exactly the raw integer the transport produced for
that call, with no reinterpretation into the status taxonomy. -/
theorem C6_passthrough_raw (hfp : Hfp) (h : hfp.is_enabled = true)
    (addr : RawAddress) (sco : Bool) (codecs : Int) (vol : Int) :
    (hfp.connect_audio addr sco codecs).ret =
      hfp.internal.connect_audio addr sco codecs ∧
    (hfp.set_active_device addr).ret = hfp.internal.set_active_device addr ∧
    (hfp.set_volume vol addr).ret = hfp.internal.set_volume vol addr ∧
    (hfp.disconnect_audio addr).ret = hfp.internal.disconnect_audio addr := by
  refine ⟨?_, ?_, ?_, ?_⟩ <;>
    simp [Hfp.connect_audio, Hfp.set_active_device, Hfp.set_volume,
      Hfp.disconnect_audio, h]

/-- C6 witness: on a concrete enabled profile each passthrough returns
the transport's distinctive raw value. -/
theorem C6_passthrough_raw_witness :
    hfpEnabled.is_enabled = true ∧
    (hfpEnabled.connect_audio sampleAddr true 0).ret = 21 ∧
    (hfpEnabled.set_active_device sampleAddr).ret = 22 ∧
    (hfpEnabled.set_volume 7 sampleAddr).ret = 23 ∧
    (hfpEnabled.disconnect_audio sampleAddr).ret = 26 :=
  ⟨rfl,
    (C6_passthrough_raw hfpEnabled rfl sampleAddr true 0 7).1,
    (C6_passthrough_raw hfpEnabled rfl sampleAddr true 0 7).2.1,
    (C6_passthrough_raw hfpEnabled rfl sampleAddr true 0 7).2.2.1,
    (C6_passthrough_raw hfpEnabled rfl sampleAddr true 0 7).2.2.2⟩

/-- Each §4.2 transition preserves the §8 invariant. -/
lemma smStep_preserves_invariant :
    ∀ s : DeviceState, ∀ e : SmEvent,
      audioConnInvariant s → audioConnInvariant (smStep s e) := by
  decide

/-- C7: in the (spec-modelled, §4.2) per-device state machine, every
reachable state satisfies the §8 invariant: whenever AudioState is not
Disconnected, ConnectionState is Connected, ServiceLevelConnected or
Disconnecting — equivalently, the audio channel only leaves
Disconnected while the signaling channel is at least Connected. -/
theorem C7_audio_gated_by_connection (evs : List SmEvent) :
    audioConnInvariant (smRun evs) := by
  show audioConnInvariant (evs.foldl smStep DeviceState.initial)
  suffices h : ∀ s, audioConnInvariant s → audioConnInvariant (evs.foldl smStep s) from
    h DeviceState.initial (by decide)
  induction evs with
  | nil => exact fun s hs => hs
  | cons e tl ih => exact fun s hs => ih (smStep s e) (smStep_preserves_invariant s e hs)

/-- C7 witness: a concrete run reaching connected audio satisfies the
invariant with the signaling channel Connected. -/
theorem C7_audio_gated_by_connection_witness :
    smRun [.connectRequested, .transportConfirmsConnect,
      .audioConnectRequested, .audioConfirmed] =
      ⟨.Connected, .Connected⟩ ∧
    audioConnInvariant (smRun [.connectRequested, .transportConfirmsConnect,
      .audioConnectRequested, .audioConfirmed]) :=
  ⟨by decide,
    C7_audio_gated_by_connection
      [.connectRequested, .transportConfirmsConnect,
        .audioConnectRequested, .audioConfirmed]⟩

/-- C8: NONE is the identity element of bit-set union on both codec
bit-set types: for every valid bit-set S (no bits outside the defined
flags), NONE ∪ S = S and S ∪ NONE = S. -/
theorem C8_none_union_identity :
    (∀ s : HfpCodecBitId, s.isValid = true →
      HfpCodecBitId.NONE.union s = s ∧ s.union HfpCodecBitId.NONE = s) ∧
    (∀ s : HfpCodecFormat, s.isValid = true →
      HfpCodecFormat.NONE.union s = s ∧ s.union HfpCodecFormat.NONE = s) := by
  constructor
  · rintro ⟨bits⟩ h
    have h0 : Int.land bits (Int.not HfpCodecBitId.all_bits) = 0 := by
      simpa [HfpCodecBitId.isValid] using h
    have hb := (land_not_mask_eq_zero_iff 3 bits).mp h0
    obtain ⟨h1, h2⟩ := hb
    rw [show (Int.ofNat (2 ^ 3)) = (8 : Int) from rfl] at h2
    interval_cases bits <;> exact ⟨by decide, by decide⟩
  · rintro ⟨bits⟩ h
    have h0 : Int.land bits (Int.not HfpCodecFormat.all_bits) = 0 := by
      simpa [HfpCodecFormat.isValid] using h
    have hb := (land_not_mask_eq_zero_iff 4 bits).mp h0
    obtain ⟨h1, h2⟩ := hb
    rw [show (Int.ofNat (2 ^ 4)) = (16 : Int) from rfl] at h2
    interval_cases bits <;> exact ⟨by decide, by decide⟩

/-- C8 witness: concrete valid bit-sets absorb NONE on both sides. -/
theorem C8_none_union_identity_witness :
    (HfpCodecBitId.MSBC.isValid = true ∧
      HfpCodecBitId.NONE.union HfpCodecBitId.MSBC = HfpCodecBitId.MSBC ∧
      HfpCodecBitId.MSBC.union HfpCodecBitId.NONE = HfpCodecBitId.MSBC) ∧
    (HfpCodecFormat.LC3_TRANSPARENT.isValid = true ∧
      HfpCodecFormat.NONE.union HfpCodecFormat.LC3_TRANSPARENT =
        HfpCodecFormat.LC3_TRANSPARENT ∧
      HfpCodecFormat.LC3_TRANSPARENT.union HfpCodecFormat.NONE =
        HfpCodecFormat.LC3_TRANSPARENT) :=
  ⟨⟨(bitId_isValid_iff HfpCodecBitId.MSBC).mpr (by decide),
    (C8_none_union_identity.1 HfpCodecBitId.MSBC
      ((bitId_isValid_iff HfpCodecBitId.MSBC).mpr (by decide))).1,
    (C8_none_union_identity.1 HfpCodecBitId.MSBC
      ((bitId_isValid_iff HfpCodecBitId.MSBC).mpr (by decide))).2⟩,
   ⟨(format_isValid_iff HfpCodecFormat.LC3_TRANSPARENT).mpr (by decide),
    (C8_none_union_identity.2 HfpCodecFormat.LC3_TRANSPARENT
      ((format_isValid_iff HfpCodecFormat.LC3_TRANSPARENT).mpr (by decide))).1,
    (C8_none_union_identity.2 HfpCodecFormat.LC3_TRANSPARENT
      ((format_isValid_iff HfpCodecFormat.LC3_TRANSPARENT).mpr (by decide))).2⟩⟩

/-- C9: over the supported byte set {0x00..0x07, 0xff} the coding-format
conversion round-trips (byte → EscoCodingFormat → byte is the identity),
and converting any EscoCodingFormat to a byte always succeeds, landing
back in the supported set (from_u8 maps it back to the same variant). -/
theorem C9_esco_coding_format_round_trip :
    ([0, 1, 2, 3, 4, 5, 6, 7, 0xff].all
      (fun b => (EscoCodingFormat.from_u8 b).map EscoCodingFormat.to_u8
        == some b)) = true ∧
    ∀ f : EscoCodingFormat, EscoCodingFormat.from_u8 f.to_u8 = some f :=
  ⟨by decide, fun f => by cases f <;> rfl⟩

/-- C10: with the profile disabled, disable() and cleanup() return false
with no transport cleanup and unchanged state; with the profile enabled,
disable() invokes the transport's cleanup, clears the enabled flag and
returns true. -/
theorem C10_disable_cleanup_guarded (hfp : Hfp) :
    (hfp.is_enabled = false →
      hfp.disable = ⟨false, hfp, []⟩ ∧ hfp.cleanup = ⟨false, hfp, []⟩) ∧
    (hfp.is_enabled = true →
      hfp.disable = ⟨true, { hfp with is_enabled := false }, [.cleanup]⟩) := by
  constructor <;> intro h <;> simp [Hfp.disable, Hfp.cleanup, h]

/-- C10 witness at concrete disabled and enabled profiles. -/
theorem C10_disable_cleanup_guarded_witness :
    (hfpDisabled.is_enabled = false ∧
      hfpDisabled.disable = ⟨false, hfpDisabled, []⟩ ∧
      hfpDisabled.cleanup = ⟨false, hfpDisabled, []⟩) ∧
    (hfpEnabled.is_enabled = true ∧
      hfpEnabled.disable = ⟨true, { hfpEnabled with is_enabled := false }, [.cleanup]⟩) :=
  ⟨⟨rfl, (C10_disable_cleanup_guarded hfpDisabled).1 rfl⟩,
   ⟨rfl, (C10_disable_cleanup_guarded hfpEnabled).2 rfl⟩⟩
